import Mathlib

/-!
Verification of the KDT_WEB keyword-driven test platform.

Shallow embedding of the core subsystems:
* `core/keyword_engine.py` — the keyword dispatcher (`KeywordEngine`),
* `core/runner.py` — run orchestration (`run_test_case`, `save_run_results`),
* `agent/manager.py` — the agent registry and command dispatch (`AgentManager`),
* `agent/router.py` — the polling command channel (`agent_commands` dict).

The browser-automation driver (Playwright) is modelled as an oracle (`Page`)
assigning to each driver primitive an outcome `Except String Unit`: `.ok` when
the browser action succeeds, `.error msg` when it raises.  Python exceptions
are embedded as `Except`/sum results, Python `str | None` fields as
`Option String`, Python dicts as insertion-ordered association lists, and
`asyncio.Queue`s as lists used FIFO.
-/

/-- Python truthiness of an optional string: `None` and `""` are falsy
(`not x` in the source is `!(truthy x)` here). -/
def truthy : Option String → Bool
  | none => false
  | some s => !(s = "")

/-- Python `s.startswith(pre)`, modelled on the character lists (Lean's
built-in `String.startsWith` is extensionally the same but does not reduce
in the kernel). -/
def starts_with (pre s : String) : Bool :=
  pre.data.isPrefixOf s.data

/-- Oracle for the Playwright page driven by `KeywordEngine`: the
outcome of each driver primitive, as a function of the arguments the
engine passes to it. -/
structure Page where
  goto_result : String → Except String Unit
  click_result : String → Except String Unit
  fill_result : String → String → Except String Unit
  press_result : String → String → Except String Unit
  select_option_result : String → String → Except String Unit
  wait_for_selector_result : String → Except String Unit
  wait_for_url_result : String → Except String Unit
  expect_text_result : String → String → Except String Unit
  expect_title_result : String → Except String Unit
  screenshot_result : String → Except String Unit

/-- `KeywordEngine.__init__`: page, base URL and the screenshot directory
`os.path.join(output_dir, "screenshots")`. -/
structure KeywordEngine where
  page : Page
  base_url : String
  screenshot_dir : String

/-- Building a `KeywordEngine` from an output directory, as `__init__` does. -/
def KeywordEngine.init (page : Page) (base_url output_dir : String) : KeywordEngine :=
  ⟨page, base_url, output_dir ++ "/screenshots"⟩

/-- `KeywordEngine.KEYWORDS`: the keys of `KEYWORD_DEFINITIONS`, in order. -/
def KeywordEngine.KEYWORDS : List String :=
  ["goto", "click", "fill", "press", "select_option", "wait_for_selector",
   "wait_for_url", "expect_text", "expect_title", "screenshot"]

/-- `KeywordEngine._get_locator`: locators starting with "/" or "(" are
prefixed with "xpath=", all others are passed through. -/
def KeywordEngine.get_locator (locator : String) : String :=
  if starts_with "/" locator || starts_with "(" locator then "xpath=" ++ locator
  else locator

/-- One test step, as the dict consumed by `execute_step`
(`keyword` / `locator` / `value` / `description` / `id` keys). -/
structure Step where
  keyword : Option String
  locator : Option String
  value : Option String
  description : Option String
  id : Option Nat

/-- The log line prefix computed by `execute_step`:
`step.get("description") or f"{keyword} {'on ' + locator if locator else ''}"`. -/
def step_description (step : Step) : String :=
  if truthy step.description then step.description.getD ""
  else (match step.keyword with
        | some k => k
        | none => "None")
    ++ " " ++ (if truthy step.locator then "on " ++ step.locator.getD "" else "")

/-- `step.get('id', 'unknown')` as rendered into the failure-screenshot
filename. -/
def step_id_str (step : Step) : String :=
  match step.id with
  | some n => Nat.repr n
  | none => "unknown"

namespace KeywordEngine

/-- `KeywordEngine.goto`: requires a truthy `value`; prepends `base_url`
unless the value starts with "http". -/
def goto (e : KeywordEngine) (_locator value : Option String) : Except String Unit :=
  if !(truthy value) then .error "goto keyword requires a URL in the value field"
  else
    let v := value.getD ""
    let url := if starts_with "http" v then v else e.base_url ++ v
    e.page.goto_result url

/-- `KeywordEngine.click`: requires a truthy `locator`. -/
def click (e : KeywordEngine) (locator _value : Option String) : Except String Unit :=
  if !(truthy locator) then .error "click keyword requires a locator"
  else e.page.click_result (get_locator (locator.getD ""))

/-- `KeywordEngine.fill`: rejects a falsy `locator` or a `None` value
(`if not locator or value is None`). -/
def fill (e : KeywordEngine) (locator value : Option String) : Except String Unit :=
  if !(truthy locator) || value.isNone then
    .error "fill keyword requires locator and value"
  else e.page.fill_result (get_locator (locator.getD "")) (value.getD "")

/-- `KeywordEngine.press`: rejects a falsy `locator` or a falsy `value`
(`if not locator or not value`). -/
def press (e : KeywordEngine) (locator value : Option String) : Except String Unit :=
  if !(truthy locator) || !(truthy value) then
    .error "press keyword requires locator and a key in value"
  else e.page.press_result (get_locator (locator.getD "")) (value.getD "")

/-- `KeywordEngine.select_option`: rejects a falsy `locator` or a falsy
`value` (`if not locator or not value`). -/
def select_option (e : KeywordEngine) (locator value : Option String) : Except String Unit :=
  if !(truthy locator) || !(truthy value) then
    .error "select_option keyword requires locator and value"
  else e.page.select_option_result (get_locator (locator.getD "")) (value.getD "")

/-- `KeywordEngine.wait_for_selector`: requires a truthy `locator`. -/
def wait_for_selector (e : KeywordEngine) (locator _value : Option String) :
    Except String Unit :=
  if !(truthy locator) then .error "wait_for_selector keyword requires a locator"
  else e.page.wait_for_selector_result (get_locator (locator.getD ""))

/-- `KeywordEngine.wait_for_url`: requires a truthy `value`. -/
def wait_for_url (e : KeywordEngine) (_locator value : Option String) :
    Except String Unit :=
  if !(truthy value) then .error "wait_for_url keyword requires a URL pattern in value"
  else e.page.wait_for_url_result (value.getD "")

/-- `KeywordEngine.expect_text`: rejects a falsy `locator` or a `None`
value (`if not locator or value is None`). -/
def expect_text (e : KeywordEngine) (locator value : Option String) :
    Except String Unit :=
  if !(truthy locator) || value.isNone then
    .error "expect_text keyword requires locator and value"
  else e.page.expect_text_result (get_locator (locator.getD "")) (value.getD "")

/-- `KeywordEngine.expect_title`: rejects a `None` value (`if value is None`). -/
def expect_title (e : KeywordEngine) (_locator value : Option String) :
    Except String Unit :=
  if value.isNone then .error "expect_title keyword requires a title in value"
  else e.page.expect_title_result (value.getD "")

/-- `KeywordEngine.screenshot`: computes the path
`os.path.join(screenshot_dir, filename)` (the filename defaults to
`screenshot_{time}.png` when `value` is falsy), awaits
`page.screenshot(path=path)` — which, like every other driver call, can
raise — and returns the path. -/
def screenshot (e : KeywordEngine) (value : Option String) (now : Nat) :
    Except String String :=
  let filename := if truthy value then value.getD ""
                  else "screenshot_" ++ Nat.repr now ++ ".png"
  let path := e.screenshot_dir ++ "/" ++ filename
  match e.page.screenshot_result path with
  | .ok _ => .ok path
  | .error msg => .error msg

/-- The dynamic dispatch `getattr(self, keyword)` followed by
`method(locator=locator, value=value)`, for `keyword ∈ KEYWORDS`.
The `screenshot` keyword returns a path, discarded by `execute_step`. -/
def call_keyword (e : KeywordEngine) (k : String) (locator value : Option String)
    (now : Nat) : Except String Unit :=
  if k = "goto" then e.goto locator value
  else if k = "click" then e.click locator value
  else if k = "fill" then e.fill locator value
  else if k = "press" then e.press locator value
  else if k = "select_option" then e.select_option locator value
  else if k = "wait_for_selector" then e.wait_for_selector locator value
  else if k = "wait_for_url" then e.wait_for_url locator value
  else if k = "expect_text" then e.expect_text locator value
  else if k = "expect_title" then e.expect_title locator value
  else if k = "screenshot" then
    match e.screenshot value now with
    | .ok _ => .ok ()
    | .error msg => .error msg
  else .error "unreachable: keyword checked against KEYWORDS"

/-- The body of `execute_step`'s `try` block: the unsupported-keyword check
(`if keyword not in self.KEYWORDS: raise ValueError`) followed by the dynamic
dispatch; `.error` is anything the block raises. -/
def step_attempt (e : KeywordEngine) (step : Step) (now : Nat) :
    Except String Unit :=
  match step.keyword with
  | none => .error "Unsupported keyword: None"
  | some k =>
      if !(KEYWORDS.contains k) then .error ("Unsupported keyword: " ++ k)
      else e.call_keyword k step.locator step.value now

/-- `KeywordEngine.execute_step`: normally returns the triple
`(success, message, screenshot_path)` (embedded as `.ok`).  Everything
raised inside the `try` — the unsupported-keyword `ValueError`, a handler's
missing-field `ValueError`, or a driver failure — is caught, and the
`except` handler captures a screenshot named after the step id and returns
its path; but that `await self.screenshot(...)` is itself a driver call,
and if it raises, the exception escapes `execute_step` (embedded as
`.error`). -/
def execute_step (e : KeywordEngine) (step : Step) (now : Nat) :
    Except String (Bool × String × Option String) :=
  match e.step_attempt step now with
  | .ok _ => .ok (true, "SUCCESS: " ++ step_description step, none)
  | .error err =>
      match e.screenshot (some ("step_" ++ step_id_str step ++ "_failure.png")) now with
      | .ok path =>
          .ok (false, "FAILURE: " ++ step_description step ++ ". Error: " ++ err,
            some path)
      | .error msg => .error msg

end KeywordEngine

/-- The spec's wording of the locator-routing heuristic: a locator is routed
to path-expression (XPath-style) resolution exactly when it starts with "/"
or "(". -/
def routes_to_xpath (s : String) : Bool :=
  starts_with "/" s || starts_with "(" s

/-- A page oracle on which every driver primitive succeeds. -/
def pageOk : Page :=
  ⟨fun _ => .ok (), fun _ => .ok (), fun _ _ => .ok (), fun _ _ => .ok (),
   fun _ _ => .ok (), fun _ => .ok (), fun _ => .ok (), fun _ _ => .ok (),
   fun _ => .ok (), fun _ => .ok ()⟩

/-- A concrete engine over `pageOk`. -/
def engineOk : KeywordEngine := KeywordEngine.init pageOk "http://t" "reports/run_1_0"

/-- A page oracle whose screenshot primitive raises (the browser target is
gone) while every other primitive succeeds. -/
def pageBadShot : Page :=
  ⟨fun _ => .ok (), fun _ => .ok (), fun _ _ => .ok (), fun _ _ => .ok (),
   fun _ _ => .ok (), fun _ => .ok (), fun _ => .ok (), fun _ _ => .ok (),
   fun _ => .ok (),
   fun _ => .error "Target page, context or browser has been closed"⟩

/-- A concrete engine over `pageBadShot`. -/
def engineBadShot : KeywordEngine :=
  KeywordEngine.init pageBadShot "http://t" "reports/run_1_0"

/-! ## `core/runner.py` — run orchestration -/

/-- One element of `run_log_entries` in `run_test_case`. -/
structure LogEntry where
  step_id : Option Nat
  level : String
  message : String
  screenshot_path : Option String

/-- The project row fields `run_test_case` reads. -/
structure ProjectData where
  name : String
  browser : String
  headless : Bool
  base_url : Option String

/-- The test-case row fields `run_test_case` reads. -/
structure CaseData where
  name : String
  project_id : Nat
  steps : List Step

/-- The external collaborators of one `run_test_case` call: the two `crud`
lookups, the Playwright page oracle, an exception optionally raised while
opening the session / context / tracing (before any step), an exception
optionally raised while stopping tracing / closing (after the step loop),
and the wall clock. -/
structure RunEnv where
  get_test_case : Option CaseData
  get_project : Option ProjectData
  page : Page
  open_error : Option String
  close_error : Option String
  now : Nat

/-- The step loop of `run_test_case` (source lines 71–87): executes steps in
order starting at 0-based index `i`, overwrites each step's `id` with its
1-based position before dispatch, records one log entry per attempted step,
and stops at the first failure.  A normal exit (`.ok`) returns
`(run_log_entries, all_steps_succeeded, steps handed to execute_step)`; an
exception escaping `execute_step` aborts the loop (`.error`), carrying the
message, the entries appended before the raising step (the raising step's
entry is never appended), and the steps dispatched so far including the
raising one. -/
def run_steps (e : KeywordEngine) (now : Nat) : Nat → List Step →
    Except (String × List LogEntry × List Step) (List LogEntry × Bool × List Step)
  | _, [] => .ok ([], true, [])
  | i, step :: rest =>
    let step2 : Step := { step with id := some (i + 1) }
    match e.execute_step step2 now with
    | .error msg => .error (msg, [], [step2])
    | .ok r =>
      let entry : LogEntry :=
        ⟨some (i + 1), if r.1 then "INFO" else "ERROR", r.2.1, r.2.2⟩
      if r.1 then
        match run_steps e now (i + 1) rest with
        | .ok t => .ok (entry :: t.1, t.2.1, step2 :: t.2.2)
        | .error t => .error (t.1, entry :: t.2.1, step2 :: t.2.2)
      else .ok ([entry], false, [step2])

/-- The log entries the loop appended, on either exit. -/
def loop_logs :
    Except (String × List LogEntry × List Step) (List LogEntry × Bool × List Step) →
      List LogEntry
  | .ok t => t.1
  | .error t => t.2.1

/-- The steps the loop handed to `execute_step`, on either exit. -/
def loop_invoked :
    Except (String × List LogEntry × List Step) (List LogEntry × Bool × List Step) →
      List Step
  | .ok t => t.2.2
  | .error t => t.2.2

/-- What the dispatcher returned for the step at 0-based position `i` (with
its `id` overwritten to `i + 1`): `some success` when `execute_step`
returned a triple, `none` when it raised. -/
def step_outcome (e : KeywordEngine) (now : Nat) (step : Step) (i : Nat) :
    Option Bool :=
  match e.execute_step { step with id := some (i + 1) } now with
  | .ok r => some r.1
  | .error _ => none

/-- The steps as the loop annotates them: `id` overwritten with the 1-based
position, counting from `i`. -/
def with_ids : Nat → List Step → List Step
  | _, [] => []
  | i, s :: rest => { s with id := some (i + 1) } :: with_ids (i + 1) rest

/-- `n` consecutive 1-based positions starting after offset `i`:
`[i+1, i+2, ..., i+n]` (each wrapped in `some`). -/
def positions_from : Nat → Nat → List (Option Nat)
  | _, 0 => []
  | i, n + 1 => some (i + 1) :: positions_from (i + 1) n

/-- The engine `run_test_case` builds: `KeywordEngine(page,
base_url=project_data.base_url or '', output_dir=output_dir)` with
`output_dir = reports/run_{case_id}_{timestamp}`. -/
def env_engine (env : RunEnv) (case_id : Nat) (pd : ProjectData) : KeywordEngine :=
  KeywordEngine.init env.page (pd.base_url.getD "")
    ("reports/run_" ++ Nat.repr case_id ++ "_" ++ Nat.repr env.now)

/-- The CRITICAL entry appended by `run_test_case`'s top-level `except`. -/
def critical_entry (msg : String) : LogEntry := ⟨none, "CRITICAL", msg, none⟩

/-- Outcome of `run_test_case`'s `try` block: the message of the exception
that escaped it (if any), the log entries accumulated when control left the
block, the `all_steps_succeeded` flag, and the artifact paths assigned so
far (`report_path` is `reports/.../report.zip` until the trace is closed,
then `reports/.../trace.zip`). -/
structure TryExit where
  error_msg : Option String
  entries : List LogEntry
  all_ok : Bool
  report_path : Option String
  log_path : Option String

/-- The `try` block of `run_test_case` (lines 38–102): case lookup, project
lookup, session open, step loop, trace close.  Any raised exception carries
out the entries logged so far. -/
def run_try (env : RunEnv) (case_id : Nat) : TryExit :=
  match env.get_test_case with
  | none =>
      ⟨some ("Test case with ID " ++ Nat.repr case_id ++ " not found."),
       [], true, none, none⟩
  | some cd =>
    match env.get_project with
    | none =>
        ⟨some ("Project with ID " ++ Nat.repr cd.project_id ++ " not found."),
         [], true, none, none⟩
    | some pd =>
      let output_dir := "reports/run_" ++ Nat.repr case_id ++ "_" ++ Nat.repr env.now
      let log_path := some (output_dir ++ "/run.log")
      match env.open_error with
      | some msg => ⟨some msg, [], true, none, log_path⟩
      | none =>
        match run_steps (env_engine env case_id pd) env.now 0 cd.steps with
        | .error t =>
            ⟨some t.1, t.2.1, true, some (output_dir ++ "/report.zip"), log_path⟩
        | .ok t =>
          match env.close_error with
          | some msg =>
              ⟨some msg, t.1, t.2.1, some (output_dir ++ "/report.zip"), log_path⟩
          | none => ⟨none, t.1, t.2.1, some (output_dir ++ "/trace.zip"), log_path⟩

/-- What `run_test_case` hands to persistence: final status, log entries,
artifact paths. -/
structure RunResult where
  status : String
  entries : List LogEntry
  report_path : Option String
  log_path : Option String

/-- `run_test_case` (lines 27–119): the `try` block, the `except` clause
(status forced to "Failed", one CRITICAL entry appended), and the
status assignment `"Passed" if all_steps_succeeded else "Failed"` on the
normal path. -/
def run_test_case (env : RunEnv) (case_id : Nat) : RunResult :=
  let t := run_try env case_id
  match t.error_msg with
  | none =>
      ⟨if t.all_ok then "Passed" else "Failed", t.entries, t.report_path, t.log_path⟩
  | some msg =>
      ⟨"Failed", t.entries ++ [critical_entry msg], t.report_path, t.log_path⟩

/-- The `test_runs` row inserted by `save_run_results`. -/
structure RunRow where
  case_id : Nat
  status : String
  start_time : Nat
  end_time : Nat
  duration : Nat
  report_path : Option String
  log_path : Option String

/-- One `run_logs` row inserted by `save_run_results`. -/
structure LogRow where
  run_id : Nat
  step_id : Option Nat
  level : String
  message : String
  screenshot_path : Option String

/-- `save_run_results` (lines 121–147): inserts the run row, reads back the
newly assigned run id (`run_id`, supplied by the store), then inserts one
log row per entry under that id. -/
def save_run_results (run_id case_id : Nat) (status : String)
    (start_time end_time duration : Nat) (report_path log_path : Option String)
    (logs : List LogEntry) : RunRow × List LogRow :=
  (⟨case_id, status, start_time, end_time, duration, report_path, log_path⟩,
   logs.map fun l => ⟨run_id, l.step_id, l.level, l.message, l.screenshot_path⟩)

/-- `run_test_case` followed by the `finally` clause's unconditional
`save_run_results` call. -/
def run_and_save (env : RunEnv) (case_id run_id end_time : Nat) :
    RunResult × RunRow × List LogRow :=
  let r := run_test_case env case_id
  let saved := save_run_results run_id case_id r.status env.now end_time
      (end_time - env.now) r.report_path r.log_path r.entries
  (r, saved.1, saved.2)

/-- A concrete benign environment: lookups succeed, a zero-step case, no
session errors. -/
def envEmpty : RunEnv :=
  ⟨some ⟨"case0", 1, []⟩, some ⟨"proj0", "chromium", true, none⟩, pageOk,
   none, none, 0⟩

/-- A concrete environment whose case lookup fails. -/
def envNoCase : RunEnv := ⟨none, none, pageOk, none, none, 0⟩

/-- A concrete step that always succeeds (the `screenshot` keyword), with a
deliberately wrong stored id (99). -/
def stepW : Step := ⟨some "screenshot", none, some "shot.png", none, some 99⟩

/-- A concrete step that always fails (unknown keyword). -/
def stepBad : Step := ⟨some "frobnicate", none, none, none, none⟩

/-- A concrete two-step case whose second step is the first to fail. -/
def cdW : CaseData := ⟨"caseW", 1, [stepW, stepBad]⟩

/-- A concrete project row. -/
def pdW : ProjectData := ⟨"projW", "chromium", true, none⟩

/-- A concrete benign environment around `cdW`. -/
def envW : RunEnv := ⟨some cdW, some pdW, pageOk, none, none, 0⟩

/-! ## `agent/models.py`, `agent/manager.py`, `agent/router.py` -/

/-- `AgentStatus` enumeration. -/
inductive AgentStatus where
  | online
  | offline
  | busy
  | error
deriving DecidableEq

/-- `AgentCommand` enumeration. -/
inductive AgentCommand where
  | run_test_case
  | run_module
  | run_project
  | ping
  | shutdown
deriving DecidableEq

/-- `AgentInfo` (pydantic model); timestamps as naturals, the untyped
`current_task` field elided. -/
structure AgentInfo where
  id : String
  name : String
  hostname : String
  ip_address : String
  status : AgentStatus
  last_seen : Nat
  capabilities : List String
  created_at : Nat
deriving DecidableEq

/-- `AgentCommandRequest`; the untyped `payload : Dict[str, Any]` is
modelled as a string-to-string association list. -/
structure AgentCommandRequest where
  command : AgentCommand
  payload : List (String × String)
  timeout : Nat
deriving DecidableEq

/-- `AgentCommandResponse`. -/
structure AgentCommandResponse where
  success : Bool
  message : String
  result : Option (List (String × String))
  error : Option String
deriving DecidableEq

/-- Python dict lookup `d.get(k)`, on an insertion-ordered association
list without duplicate keys. -/
def dict_get {α : Type} (k : String) : List (String × α) → Option α
  | [] => none
  | p :: rest => if p.1 = k then some p.2 else dict_get k rest

/-- Python dict assignment `d[k] = v`: replaces the value of an existing
key in place, otherwise appends in insertion order. -/
def dict_set {α : Type} (k : String) (v : α) :
    List (String × α) → List (String × α)
  | [] => [(k, v)]
  | p :: rest => if p.1 = k then (k, v) :: rest else p :: dict_set k v rest

/-- The guarded Python delete `if k in d: del d[k]` (absent keys are left
alone). -/
def dict_del {α : Type} (k : String) : List (String × α) → List (String × α)
  | [] => []
  | p :: rest => if p.1 = k then dict_del k rest else p :: dict_del k rest

/-- `AgentManager`'s state: the three per-agent dicts, plus the counter
backing the id generator.  `uuid.uuid4()` is an external source of random
identifiers whose uniqueness the code relies on; it is modelled as an
injective rendering of this counter. -/
structure AgentManagerState where
  agents : List (String × AgentInfo)
  agent_connections : List (String × List AgentCommandResponse)
  command_queues : List (String × List AgentCommandRequest)
  uuid_counter : Nat

/-- `str(uuid.uuid4())` for the `n`-th draw (injective in `n`). -/
def uuid4 (n : Nat) : String := String.mk (List.replicate n 'u')

/-- `AgentManager.register_agent`: assigns a fresh id, stamps the info
record Online with fresh timestamps, and creates empty response
(`agent_connections`) and command (`command_queues`) channels. -/
def register_agent (s : AgentManagerState) (info : AgentInfo) (now : Nat) :
    String × AgentManagerState :=
  let agent_id := uuid4 s.uuid_counter
  let info2 := { info with
    id := agent_id
    created_at := now
    last_seen := now
    status := AgentStatus.online }
  (agent_id,
   { agents := dict_set agent_id info2 s.agents,
     agent_connections := dict_set agent_id [] s.agent_connections,
     command_queues := dict_set agent_id [] s.command_queues,
     uuid_counter := s.uuid_counter + 1 })

/-- `AgentManager.unregister_agent`: removes the info record and both
channels; each delete is guarded, so an unknown id is a no-op. -/
def unregister_agent (s : AgentManagerState) (agent_id : String) :
    AgentManagerState :=
  { s with
    agents := dict_del agent_id s.agents
    agent_connections := dict_del agent_id s.agent_connections
    command_queues := dict_del agent_id s.command_queues }

/-- `AgentManager.update_agent_status`: sets status and refreshes
`last_seen`; no-op on an unknown id. -/
def update_agent_status (s : AgentManagerState) (agent_id : String)
    (status : AgentStatus) (now : Nat) : AgentManagerState :=
  match dict_get agent_id s.agents with
  | none => s
  | some info =>
      { s with
        agents := dict_set agent_id
          { info with status := status, last_seen := now } s.agents }

/-- The execution-class check
`command.command in [RUN_TEST_CASE, RUN_MODULE, RUN_PROJECT]`. -/
def is_execution_command (c : AgentCommand) : Bool :=
  [AgentCommand.run_test_case, AgentCommand.run_module,
   AgentCommand.run_project].contains c

/-- `AgentManager.send_command`.  `arrival` is the response oracle: `some r`
when the agent's response `r` reaches the response channel within
`command.timeout`, `none` on `asyncio.TimeoutError`.  The two
`update_agent_status ... online` calls at the end of each branch are the
`finally` block, which runs after the `except` handler's `return`. -/
def send_command (s : AgentManagerState) (agent_id : String)
    (command : AgentCommandRequest) (arrival : Option AgentCommandResponse)
    (now : Nat) : AgentCommandResponse × AgentManagerState :=
  if (dict_get agent_id s.command_queues).isNone then
    (⟨false, "Agent not found or not connected", none, some "Agent not found"⟩, s)
  else
    let s1 := if is_execution_command command.command
              then update_agent_status s agent_id AgentStatus.busy now else s
    let s2 := { s1 with
      command_queues :=
        dict_set agent_id
          ((dict_get agent_id s1.command_queues).getD [] ++ [command])
          s1.command_queues }
    match arrival with
    | some response =>
        let s3 := if is_execution_command command.command
                  then update_agent_status s2 agent_id AgentStatus.online now else s2
        (response, s3)
    | none =>
        let s3 := update_agent_status s2 agent_id AgentStatus.error now
        let s4 := if is_execution_command command.command
                  then update_agent_status s3 agent_id AgentStatus.online now else s3
        (⟨false, "Command timeout", none, some "Timeout waiting for agent response"⟩,
         s4)

/-- `agent/router.py` module state: the global manager plus the
module-level `agent_commands` backlog dict. -/
structure RouterState where
  manager : AgentManagerState
  agent_commands : List (String × List AgentCommandRequest)

/-- FastAPI `HTTPException` responses raised by the router. -/
inductive HTTPError where
  | notFound (detail : String)
deriving DecidableEq

/-- `send_command_to_agent` (router): 404 on unknown agent, else appends
the command to the agent's backlog (creating it when missing) and
acknowledges. -/
def send_command_to_agent (rs : RouterState) (agent_id : String)
    (command : AgentCommandRequest) :
    Except HTTPError (AgentCommandResponse × RouterState) :=
  match dict_get agent_id rs.manager.agents with
  | none => .error (.notFound "Agent not found")
  | some _ =>
      let backlog := (dict_get agent_id rs.agent_commands).getD []
      .ok (⟨true, "Command queued for agent " ++ agent_id, none, none⟩,
           { rs with
             agent_commands :=
               dict_set agent_id (backlog ++ [command]) rs.agent_commands })

/-- `get_agent_commands` (router): 404 on unknown agent; refreshes
last-seen (status unchanged); pops the backlog head if the backlog is
nonempty, else answers the empty sentinel `{}` (here `none`) — never
waiting. -/
def get_agent_commands (rs : RouterState) (agent_id : String) (now : Nat) :
    Except HTTPError (Option AgentCommandRequest × RouterState) :=
  match dict_get agent_id rs.manager.agents with
  | none => .error (.notFound "Agent not found")
  | some agent =>
      let rs2 := { rs with
        manager := update_agent_status rs.manager agent_id agent.status now }
      match dict_get agent_id rs2.agent_commands with
      | some (c :: rest) =>
          .ok (some c, { rs2 with
            agent_commands := dict_set agent_id rest rs2.agent_commands })
      | _ => .ok (none, rs2)

/-- A concrete agent registration payload. -/
def agentInfo0 : AgentInfo :=
  ⟨"", "agent-a", "host-a", "10.0.0.1", AgentStatus.offline, 0, [], 0⟩

/-- A second concrete agent registration payload. -/
def agentInfo1 : AgentInfo :=
  ⟨"", "agent-b", "host-b", "10.0.0.2", AgentStatus.offline, 0, [], 0⟩

/-- The empty manager state. -/
def mgrEmpty : AgentManagerState := ⟨[], [], [], 0⟩

/-- The manager after registering `agentInfo0`. -/
def mgr1 : AgentManagerState := (register_agent mgrEmpty agentInfo0 0).2

/-- The id assigned to `agentInfo0`. -/
def agentId0 : String := (register_agent mgrEmpty agentInfo0 0).1

/-- The info record stored for `agentInfo0` after registration. -/
def agentReg : AgentInfo :=
  ⟨uuid4 0, "agent-a", "host-a", "10.0.0.1", AgentStatus.online, 0, [], 0⟩

/-- A concrete execution-class command. -/
def cmdRun : AgentCommandRequest := ⟨AgentCommand.run_test_case, [], 300⟩

/-- A second concrete execution-class command. -/
def cmdRun2 : AgentCommandRequest := ⟨AgentCommand.run_module, [], 300⟩

/-- Router state with one registered agent and an empty backlog. -/
def rsW : RouterState := ⟨mgr1, [(agentId0, [])]⟩

/-- C5: `_get_locator` routes a locator to XPath resolution (prefixing
"xpath=") exactly when it starts with "/" or "(", and passes it through to
native-selector resolution otherwise; in particular on the three locators
named by the spec. -/
theorem get_locator_routing :
    (∀ s : String, KeywordEngine.get_locator s =
      (if routes_to_xpath s then "xpath=" ++ s else s))
    ∧ KeywordEngine.get_locator "/html/body/div" = "xpath=/html/body/div"
    ∧ KeywordEngine.get_locator "(//div)" = "xpath=(//div)"
    ∧ KeywordEngine.get_locator "button#submit" = "button#submit" := by
  refine ⟨fun s => rfl, ?_, ?_, ?_⟩ <;> decide

/-- C9: at the step interface, `fill` accepts an empty-string value (its
check only rejects `None`), while `press` and `select_option` reject an
empty-string value exactly like a missing one; and `click`, `fill`, `press`,
`select_option` all reject an empty-string locator as missing. -/
theorem empty_string_field_checks (e : KeywordEngine) :
    (∀ l, truthy l = true →
      e.fill l (some "") =
        e.page.fill_result (KeywordEngine.get_locator (l.getD "")) "")
    ∧ (∀ l, e.press l (some "") =
        .error "press keyword requires locator and a key in value")
    ∧ (∀ l, e.select_option l (some "") =
        .error "select_option keyword requires locator and value")
    ∧ (∀ v, e.click (some "") v = .error "click keyword requires a locator"
        ∧ e.fill (some "") v = .error "fill keyword requires locator and value"
        ∧ e.press (some "") v =
            .error "press keyword requires locator and a key in value"
        ∧ e.select_option (some "") v =
            .error "select_option keyword requires locator and value") := by
  refine ⟨?_, ?_, ?_, ?_⟩
  · intro l hl
    simp [KeywordEngine.fill, hl]
  · intro l
    simp [KeywordEngine.press, truthy]
  · intro l
    simp [KeywordEngine.select_option, truthy]
  · intro v
    refine ⟨?_, ?_, ?_, ?_⟩ <;>
      simp [KeywordEngine.click, KeywordEngine.fill, KeywordEngine.press,
            KeywordEngine.select_option, truthy]

/-- Witness for C9: the `fill` clause at the concrete engine `engineOk` with
locator "#user" and empty-string value. -/
theorem empty_string_field_checks_witness :
    engineOk.fill (some "#user") (some "") =
      engineOk.page.fill_result (KeywordEngine.get_locator "#user") "" :=
  (empty_string_field_checks engineOk).1 (some "#user") (by rfl)

/-- Counterexample to C2 as stated: a failing step (unknown keyword) on an
engine whose screenshot primitive raises.  The `except` handler's own
`await self.screenshot(...)` raises, and the exception escapes
`execute_step` — no result triple is returned. -/
theorem execute_step_screenshot_raise_escapes :
    engineBadShot.execute_step ⟨some "frobnicate", none, none, none, some 1⟩ 0
      = .error "Target page, context or browser has been closed" := by
  rfl

/-- C2 (amended): provided the driver's screenshot primitive does not raise,
`execute_step` never raises: it returns a result triple for every input
step dictionary; and for every returned triple, an unknown keyword means
`success = false`, a successful step carries no artifact path, and every
failure carries a populated screenshot path.  (Without the proviso the
handler's own screenshot call can raise past the boundary — see the
counterexample.) -/
theorem execute_step_failure_has_screenshot (e : KeywordEngine) (step : Step)
    (now : Nat) (hshot : ∀ path, e.page.screenshot_result path = .ok ()) :
    (∃ r, e.execute_step step now = .ok r)
    ∧ ∀ r, e.execute_step step now = .ok r →
        (∀ k, step.keyword = some k → KeywordEngine.KEYWORDS.contains k = false →
          r.1 = false)
        ∧ (r.1 = true → r.2.2 = none)
        ∧ (r.1 = false → ∃ p, r.2.2 = some p) := by
  have hscr : ∀ v, ∃ path, e.screenshot v now = .ok path := by
    intro v
    simp only [KeywordEngine.screenshot]
    rw [hshot]
    exact ⟨_, rfl⟩
  constructor
  · cases hat : e.step_attempt step now with
    | ok u =>
        exact ⟨(true, "SUCCESS: " ++ step_description step, none),
          by simp [KeywordEngine.execute_step, hat]⟩
    | error err =>
        obtain ⟨path, hpath⟩ :=
          hscr (some ("step_" ++ step_id_str step ++ "_failure.png"))
        exact ⟨(false, "FAILURE: " ++ step_description step ++ ". Error: " ++ err,
            some path), by simp [KeywordEngine.execute_step, hat, hpath]⟩
  · intro r hr
    cases hat : e.step_attempt step now with
    | ok u =>
        simp [KeywordEngine.execute_step, hat] at hr
        refine ⟨?_, ?_, ?_⟩
        · intro k hk hcont
          have hmem : ¬ (k ∈ KeywordEngine.KEYWORDS) := by simpa using hcont
          simp [KeywordEngine.step_attempt, hk, hmem] at hat
        · intro _
          rw [← hr]
        · intro hb
          rw [← hr] at hb
          simp at hb
    | error err =>
        obtain ⟨path, hpath⟩ :=
          hscr (some ("step_" ++ step_id_str step ++ "_failure.png"))
        simp [KeywordEngine.execute_step, hat, hpath] at hr
        refine ⟨?_, ?_, ?_⟩
        · intro _ _ _
          rw [← hr]
        · intro hb
          rw [← hr] at hb
          simp at hb
        · intro _
          exact ⟨path, by rw [← hr]⟩

/-- Witness for C2 (amended): on `engineOk` (whose screenshot primitive
succeeds), a step with the unknown keyword "frobnicate" yields a returned
triple with `success = false` and a populated screenshot path. -/
theorem execute_step_failure_has_screenshot_witness :
    ∃ r, engineOk.execute_step ⟨some "frobnicate", none, none, none, some 1⟩ 0
        = .ok r
      ∧ r.1 = false ∧ ∃ p, r.2.2 = some p := by
  have h := execute_step_failure_has_screenshot engineOk
    ⟨some "frobnicate", none, none, none, some 1⟩ 0 (fun path => rfl)
  obtain ⟨r, hr⟩ := h.1
  have hfacts := h.2 r hr
  have hfalse := hfacts.1 "frobnicate" rfl (by rfl)
  exact ⟨r, hr, hfalse, hfacts.2.2 hfalse⟩

/-- Helper: inverting `step_outcome = some b` into the dispatcher's
returned triple. -/
theorem step_outcome_some (e : KeywordEngine) (now : Nat) (step : Step)
    (i : Nat) (b : Bool) (h : step_outcome e now step i = some b) :
    ∃ m p, e.execute_step { step with id := some (i + 1) } now = .ok (b, m, p) := by
  unfold step_outcome at h
  cases hex : e.execute_step { step with id := some (i + 1) } now with
  | error msg => rw [hex] at h; simp at h
  | ok r =>
      obtain ⟨b2, m, p⟩ := r
      rw [hex] at h
      simp at h
      subst h
      exact ⟨m, p, rfl⟩

/-- Helper: when every step in `steps` is returned successful (dispatched
from 0-based index `i`), the loop exits normally, logs one entry per step,
reports success, and invokes exactly the annotated steps. -/
theorem run_steps_all_ok (e : KeywordEngine) (now : Nat) :
    ∀ (steps : List Step) (i : Nat),
      (∀ j (hj : j < steps.length),
        step_outcome e now (steps.get ⟨j, hj⟩) (i + j) = some true) →
      ∃ logs, run_steps e now i steps = .ok (logs, true, with_ids i steps)
        ∧ logs.length = steps.length := by
  intro steps
  induction steps with
  | nil => intro i _; exact ⟨[], by simp [run_steps, with_ids], rfl⟩
  | cons s rest ih =>
    intro i h
    obtain ⟨m, p, hexec⟩ := step_outcome_some e now s i true (by
      have := h 0 (by simp)
      simpa using this)
    obtain ⟨logs2, hrs2, hlen2⟩ := ih (i + 1) (fun j hj => by
      have hj2 : j + 1 < (s :: rest).length := by
        simp only [List.length_cons]
        omega
      have := h (j + 1) hj2
      have e1 : i + (j + 1) = i + 1 + j := by omega
      simpa [e1] using this)
    refine ⟨⟨some (i + 1), "INFO", m, p⟩ :: logs2, ?_, by simp [hlen2]⟩
    simp [run_steps, hexec, hrs2, with_ids]

/-- Helper: when the step at 0-based offset `k` is the first whose triple
reports failure, the loop exits normally with exactly `k + 1` entries,
reports failure, and invokes exactly the first `k + 1` annotated steps. -/
theorem run_steps_first_fail (e : KeywordEngine) (now : Nat) :
    ∀ (steps : List Step) (i k : Nat) (hk : k < steps.length),
      (∀ j (hj : j < k),
        step_outcome e now (steps.get ⟨j, Nat.lt_trans hj hk⟩) (i + j) = some true) →
      step_outcome e now (steps.get ⟨k, hk⟩) (i + k) = some false →
      ∃ logs, run_steps e now i steps
          = .ok (logs, false, with_ids i (steps.take (k + 1)))
        ∧ logs.length = k + 1 := by
  intro steps
  induction steps with
  | nil => intro i k hk; exact absurd hk (by simp)
  | cons s rest ih =>
    intro i k hk hsucc hfail
    cases k with
    | zero =>
      obtain ⟨m, p, hexec⟩ := step_outcome_some e now s i false (by
        simpa using hfail)
      exact ⟨[⟨some (i + 1), "ERROR", m, p⟩],
        by simp [run_steps, hexec, with_ids, List.take], rfl⟩
    | succ k2 =>
      obtain ⟨m, p, hexec⟩ := step_outcome_some e now s i true (by
        have := hsucc 0 (Nat.succ_pos k2)
        simpa using this)
      have hk2 : k2 < rest.length := by
        simpa [Nat.succ_lt_succ_iff] using hk
      obtain ⟨logs2, hrs2, hlen2⟩ := ih (i + 1) k2 hk2 (fun j hj => by
        have hj2 : j + 1 < k2 + 1 := by omega
        have := hsucc (j + 1) hj2
        have e1 : i + (j + 1) = i + 1 + j := by omega
        simpa [e1] using this)
        (by
          have e1 : i + (k2 + 1) = i + 1 + k2 := by omega
          simpa [e1] using hfail)
      refine ⟨⟨some (i + 1), "INFO", m, p⟩ :: logs2, ?_, by simp [hlen2]⟩
      simp [run_steps, hexec, hrs2, with_ids, List.take]

/-- Helper: on either exit of the loop, the log entries' `step_id`s and the
invoked steps' overwritten `id`s are the consecutive 1-based positions
counting from `i`. -/
theorem run_steps_positions (e : KeywordEngine) (now : Nat) :
    ∀ (steps : List Step) (i : Nat),
      (loop_logs (run_steps e now i steps)).map LogEntry.step_id
        = positions_from i (loop_logs (run_steps e now i steps)).length
      ∧ (loop_invoked (run_steps e now i steps)).map Step.id
        = positions_from i (loop_invoked (run_steps e now i steps)).length := by
  intro steps
  induction steps with
  | nil => intro i; simp [run_steps, loop_logs, loop_invoked, positions_from]
  | cons s rest ih =>
    intro i
    cases hex : e.execute_step { s with id := some (i + 1) } now with
    | error msg =>
        simp [run_steps, hex, loop_logs, loop_invoked, positions_from]
    | ok r =>
      by_cases hr : r.1 = true
      · have ih2 := ih (i + 1)
        cases ht : run_steps e now (i + 1) rest with
        | ok t =>
            rw [ht] at ih2
            simp only [loop_logs, loop_invoked] at ih2
            constructor <;>
              simp [run_steps, hex, hr, ht, loop_logs, loop_invoked,
                positions_from, ih2.1, ih2.2]
        | error t =>
            rw [ht] at ih2
            simp only [loop_logs, loop_invoked] at ih2
            constructor <;>
              simp [run_steps, hex, hr, ht, loop_logs, loop_invoked,
                positions_from, ih2.1, ih2.2]
      · have hrf : r.1 = false := by simpa using hr
        constructor <;>
          simp [run_steps, hex, hrf, loop_logs, loop_invoked, positions_from]

/-- Helper: `positions_from i n` is `List.range n` shifted by `i + 1`. -/
theorem positions_from_eq_range :
    ∀ (n i : Nat), positions_from i n
      = (List.range n).map (fun j => some (i + j + 1)) := by
  intro n
  induction n with
  | zero => intro i; simp [positions_from]
  | succ n2 ih =>
    intro i
    rw [List.range_succ_eq_map]
    simp only [List.map_cons, List.map_map]
    have hfun : ((fun j => some (i + j + 1)) ∘ Nat.succ)
        = fun j => some ((i + 1) + j + 1) := by
      funext j
      simp only [Function.comp]
      congr 1
      omega
    rw [hfun]
    simp [positions_from, ih (i + 1)]

/-- Helper: every entry the step loop logs, on either exit, has severity
INFO or ERROR. -/
theorem run_steps_levels (e : KeywordEngine) (now : Nat) :
    ∀ (steps : List Step) (i : Nat) (l : LogEntry),
      l ∈ loop_logs (run_steps e now i steps) →
        l.level = "INFO" ∨ l.level = "ERROR" := by
  intro steps
  induction steps with
  | nil => intro i l hl; simp [run_steps, loop_logs] at hl
  | cons s rest ih =>
    intro i l hl
    cases hex : e.execute_step { s with id := some (i + 1) } now with
    | error msg =>
        simp [run_steps, hex, loop_logs] at hl
    | ok r =>
      by_cases hr : r.1 = true
      · cases ht : run_steps e now (i + 1) rest with
        | ok t =>
            simp [run_steps, hex, hr, ht, loop_logs] at hl
            rcases hl with hl | hl
            · left; rw [hl]
            · exact ih (i + 1) l (by rw [ht]; simpa [loop_logs] using hl)
        | error t =>
            simp [run_steps, hex, hr, ht, loop_logs] at hl
            rcases hl with hl | hl
            · left; rw [hl]
            · exact ih (i + 1) l (by rw [ht]; simpa [loop_logs] using hl)
      · have hrf : r.1 = false := by simpa using hr
        simp [run_steps, hex, hrf, loop_logs] at hl
        right; rw [hl]

/-- Helper: the entries carried out of the `try` block are step-loop entries,
so none is CRITICAL. -/
theorem run_try_entries_levels (env : RunEnv) (case_id : Nat) :
    ∀ l ∈ (run_try env case_id).entries, l.level = "INFO" ∨ l.level = "ERROR" := by
  intro l hl
  rcases hc : env.get_test_case with _ | cd
  · simp [run_try, hc] at hl
  rcases hp : env.get_project with _ | pd
  · simp [run_try, hc, hp] at hl
  rcases ho : env.open_error with _ | m1
  · rcases hrs : run_steps (env_engine env case_id pd) env.now 0 cd.steps with t | t
    · simp [run_try, hc, hp, ho, hrs] at hl
      exact run_steps_levels _ _ _ _ l (by rw [hrs]; simpa [loop_logs] using hl)
    · rcases hcl : env.close_error with _ | m2
      · simp [run_try, hc, hp, ho, hrs, hcl] at hl
        exact run_steps_levels _ _ _ _ l (by rw [hrs]; simpa [loop_logs] using hl)
      · simp [run_try, hc, hp, ho, hrs, hcl] at hl
        exact run_steps_levels _ _ _ _ l (by rw [hrs]; simpa [loop_logs] using hl)
  · simp [run_try, hc, hp, ho] at hl

/-- C3: in a run whose lookups succeed and whose session raises no error,
steps execute in ascending order: if the step at 0-based offset `k` is the
first to fail, the run logs exactly `k + 1` entries (one per attempted
step), hands exactly the first `k + 1` steps to `execute_step`, and ends
Failed; if every step succeeds, it logs one entry per step and ends
Passed. -/
theorem fail_fast_ordering (env : RunEnv) (case_id : Nat) (cd : CaseData)
    (pd : ProjectData) (hc : env.get_test_case = some cd)
    (hp : env.get_project = some pd) (ho : env.open_error = none)
    (hcl : env.close_error = none) :
    (∀ k (hk : k < cd.steps.length),
      (∀ j (hj : j < k),
        step_outcome (env_engine env case_id pd) env.now
          (cd.steps.get ⟨j, Nat.lt_trans hj hk⟩) j = some true) →
      step_outcome (env_engine env case_id pd) env.now
          (cd.steps.get ⟨k, hk⟩) k = some false →
      (run_test_case env case_id).status = "Failed"
      ∧ (run_test_case env case_id).entries.length = k + 1
      ∧ loop_invoked (run_steps (env_engine env case_id pd) env.now 0 cd.steps)
          = with_ids 0 (cd.steps.take (k + 1)))
    ∧ ((∀ j (hj : j < cd.steps.length),
        step_outcome (env_engine env case_id pd) env.now
          (cd.steps.get ⟨j, hj⟩) j = some true) →
      (run_test_case env case_id).status = "Passed"
      ∧ (run_test_case env case_id).entries.length = cd.steps.length
      ∧ loop_invoked (run_steps (env_engine env case_id pd) env.now 0 cd.steps)
          = with_ids 0 cd.steps) := by
  constructor
  · intro k hk hsucc hfail
    obtain ⟨logs, hrs, hlen⟩ := run_steps_first_fail (env_engine env case_id pd)
      env.now cd.steps 0 k hk
      (fun j hj => by simpa using hsucc j hj)
      (by simpa using hfail)
    refine ⟨?_, ?_, ?_⟩
    · simp [run_test_case, run_try, hc, hp, ho, hcl, hrs]
    · simp [run_test_case, run_try, hc, hp, ho, hcl, hrs, hlen]
    · rw [hrs]
      simp [loop_invoked]
  · intro hsucc
    obtain ⟨logs, hrs, hlen⟩ := run_steps_all_ok (env_engine env case_id pd)
      env.now cd.steps 0
      (fun j hj => by simpa using hsucc j hj)
    refine ⟨?_, ?_, ?_⟩
    · simp [run_test_case, run_try, hc, hp, ho, hcl, hrs]
    · simp [run_test_case, run_try, hc, hp, ho, hcl, hrs, hlen]
    · rw [hrs]
      simp [loop_invoked]

/-- Witness for C3: in the concrete two-step case `cdW` whose second step is
the first to fail, the run is Failed with exactly two log entries. -/
theorem fail_fast_ordering_witness :
    (run_test_case envW 1).status = "Failed"
    ∧ (run_test_case envW 1).entries.length = 2 := by
  have h := (fail_fast_ordering envW 1 cdW pdW rfl rfl rfl rfl).1 1 (by decide)
    (fun j hj => by
      have hj0 : j = 0 := by omega
      subst hj0
      show step_outcome (env_engine envW 1 pdW) envW.now stepW 0 = some true
      decide)
    (by decide)
  exact ⟨h.1, h.2.1⟩

/-- C4: a run of a case whose step list is empty, under successful lookups
and a healthy session, ends Passed with zero log entries. -/
theorem zero_step_run_passes (env : RunEnv) (case_id : Nat) (cd : CaseData)
    (pd : ProjectData) (hc : env.get_test_case = some cd)
    (hp : env.get_project = some pd) (ho : env.open_error = none)
    (hcl : env.close_error = none) (hs : cd.steps = []) :
    (run_test_case env case_id).status = "Passed"
    ∧ (run_test_case env case_id).entries = [] := by
  constructor <;> simp [run_test_case, run_try, hc, hp, ho, hcl, hs, run_steps]

/-- Witness for C4: the concrete zero-step environment `envEmpty`. -/
theorem zero_step_run_passes_witness :
    (run_test_case envEmpty 1).status = "Passed"
    ∧ (run_test_case envEmpty 1).entries = [] :=
  zero_step_run_passes envEmpty 1 ⟨"case0", 1, []⟩ ⟨"proj0", "chromium", true, none⟩
    rfl rfl rfl rfl rfl

/-- C6: an exception escaping the `try` block of `run_test_case` is caught
exactly once — the result is Failed, the accumulated entries plus exactly
one CRITICAL entry — and persistence runs on every control path: the run
row carries the final status and the log rows are exactly one row per
captured entry under the newly assigned run id. -/
theorem top_level_exception_recovery (env : RunEnv) (case_id run_id end_time : Nat) :
    (∀ msg, (run_try env case_id).error_msg = some msg →
      (run_test_case env case_id).status = "Failed"
      ∧ (run_test_case env case_id).entries
          = (run_try env case_id).entries ++ [critical_entry msg]
      ∧ ((run_test_case env case_id).entries.filter
            (fun l => l.level == "CRITICAL")).length = 1)
    ∧ (run_and_save env case_id run_id end_time).2.1
        = ⟨case_id, (run_test_case env case_id).status, env.now, end_time,
           end_time - env.now, (run_test_case env case_id).report_path,
           (run_test_case env case_id).log_path⟩
    ∧ (run_and_save env case_id run_id end_time).2.2
        = (run_test_case env case_id).entries.map
            (fun l => ⟨run_id, l.step_id, l.level, l.message, l.screenshot_path⟩) := by
  refine ⟨?_, rfl, rfl⟩
  intro msg hmsg
  have hrtc : run_test_case env case_id
      = ⟨"Failed", (run_try env case_id).entries ++ [critical_entry msg],
         (run_try env case_id).report_path, (run_try env case_id).log_path⟩ := by
    simp [run_test_case, hmsg]
  refine ⟨by simp [hrtc], by simp [hrtc], ?_⟩
  have hnil : (run_try env case_id).entries.filter (fun l => l.level == "CRITICAL")
      = [] := by
    rw [List.filter_eq_nil_iff]
    intro a ha
    rcases run_try_entries_levels env case_id a ha with h | h <;> simp [h]
  simp [hrtc, List.filter_append, hnil, critical_entry]

/-- Witness for C6: the concrete environment `envNoCase` (case lookup
fails): the run is Failed with the single CRITICAL entry, and is still
persisted. -/
theorem top_level_exception_recovery_witness :
    (run_test_case envNoCase 7).status = "Failed"
    ∧ (run_test_case envNoCase 7).entries
        = [critical_entry "Test case with ID 7 not found."] := by
  have h := (top_level_exception_recovery envNoCase 7 0 0).1
    "Test case with ID 7 not found." (by rfl)
  refine ⟨h.1, ?_⟩
  simpa [run_try, envNoCase] using h.2.1

/-- C10: before executing the step at 0-based index `i` the loop overwrites
the step's `id` with `i + 1`, so both the logged `step_id`s and the ids of
the steps handed to `execute_step` are exactly the 1-based positions
`1, 2, ...` — regardless of the ids stored on the steps. -/
theorem log_entry_step_ids (e : KeywordEngine) (now : Nat) (steps : List Step) :
    (loop_logs (run_steps e now 0 steps)).map LogEntry.step_id
      = (List.range (loop_logs (run_steps e now 0 steps)).length).map
          (fun j => some (j + 1))
    ∧ (loop_invoked (run_steps e now 0 steps)).map Step.id
      = (List.range (loop_invoked (run_steps e now 0 steps)).length).map
          (fun j => some (j + 1)) := by
  have h := run_steps_positions e now steps 0
  constructor
  · rw [h.1, positions_from_eq_range]
    simp
  · rw [h.2, positions_from_eq_range]
    simp

/-- Helper: looking up a key just set returns the new value. -/
theorem dict_get_set_self {α : Type} (k : String) (v : α) (d : List (String × α)) :
    dict_get k (dict_set k v d) = some v := by
  induction d with
  | nil => simp [dict_get, dict_set]
  | cons p rest ih =>
    by_cases h : p.1 = k
    · simp [dict_get, dict_set, h]
    · simp [dict_get, dict_set, h, ih]

/-- Helper: looking up a key just deleted returns nothing. -/
theorem dict_get_del_self {α : Type} (k : String) (d : List (String × α)) :
    dict_get k (dict_del k d) = none := by
  induction d with
  | nil => simp [dict_get, dict_del]
  | cons p rest ih =>
    by_cases h : p.1 = k <;> simp [dict_get, dict_del, h, ih]

/-- Helper: deleting an absent key leaves the dict unchanged. -/
theorem dict_del_absent {α : Type} (k : String) (d : List (String × α))
    (h : dict_get k d = none) : dict_del k d = d := by
  induction d with
  | nil => simp [dict_del]
  | cons p rest ih =>
    by_cases hp : p.1 = k
    · simp [dict_get, hp] at h
    · simp [dict_get, hp] at h
      simp [dict_del, hp, ih h]

/-- Helper: updating a registered agent's status stores the updated record. -/
theorem update_agent_status_get (m : AgentManagerState) (agent_id : String)
    (st : AgentStatus) (now : Nat) (info : AgentInfo)
    (h : dict_get agent_id m.agents = some info) :
    dict_get agent_id (update_agent_status m agent_id st now).agents
      = some { info with status := st, last_seen := now } := by
  simp [update_agent_status, h, dict_get_set_self]

/-- Helper: a poll against a registered agent with an empty backlog answers
the sentinel and only refreshes last-seen. -/
theorem get_agent_commands_empty (rs : RouterState) (agent_id : String)
    (agent : AgentInfo) (now : Nat)
    (hreg : dict_get agent_id rs.manager.agents = some agent)
    (hempty : dict_get agent_id rs.agent_commands = some []) :
    get_agent_commands rs agent_id now
      = .ok (none, { rs with
          manager := update_agent_status rs.manager agent_id agent.status now }) := by
  simp [get_agent_commands, hreg, hempty]

/-- Helper: a poll against a registered agent with a nonempty backlog pops
exactly the head. -/
theorem get_agent_commands_pop (rs : RouterState) (agent_id : String)
    (agent : AgentInfo) (now : Nat) (c : AgentCommandRequest)
    (rest : List AgentCommandRequest)
    (hreg : dict_get agent_id rs.manager.agents = some agent)
    (hq : dict_get agent_id rs.agent_commands = some (c :: rest)) :
    get_agent_commands rs agent_id now
      = .ok (some c, { rs with
          manager := update_agent_status rs.manager agent_id agent.status now
          agent_commands := dict_set agent_id rest rs.agent_commands }) := by
  simp [get_agent_commands, hreg, hq]

/-- Helper: queueing a command for a registered agent appends it to the
backlog and acknowledges. -/
theorem send_command_to_agent_queues (rs : RouterState) (agent_id : String)
    (agent : AgentInfo) (command : AgentCommandRequest)
    (hreg : dict_get agent_id rs.manager.agents = some agent) :
    send_command_to_agent rs agent_id command
      = .ok (⟨true, "Command queued for agent " ++ agent_id, none, none⟩,
          { rs with
            agent_commands := dict_set agent_id
              ((dict_get agent_id rs.agent_commands).getD [] ++ [command])
              rs.agent_commands }) := by
  simp [send_command_to_agent, hreg]

/-- C1 (code evaluation at the failing input): dispatching an
execution-class command to a registered agent whose response never arrives
within the timeout gives the caller the structured Timeout failure, but
leaves the agent's status Online — not Error — because the `finally` block
("reset agent status to online after command execution") runs after the
timeout handler's `return` and overwrites the Error it had just set. -/
theorem send_command_timeout_leaves_online :
    (send_command mgr1 agentId0 cmdRun none 5).1
      = ⟨false, "Command timeout", none, some "Timeout waiting for agent response"⟩
    ∧ (dict_get agentId0 (send_command mgr1 agentId0 cmdRun none 5).2.agents).map
        AgentInfo.status = some AgentStatus.online
    ∧ (dict_get agentId0 (send_command mgr1 agentId0 cmdRun none 5).2.agents).map
        AgentInfo.status ≠ some AgentStatus.error := by
  refine ⟨rfl, rfl, ?_⟩
  intro h
  exact absurd (rfl.trans h) (by decide)

/-- C7: registering two agents yields two distinct ids, each registration
storing the info record Online with fresh empty response and command
channels; unregistering an id absent from the registry is a no-op, and
unregistering a registered id removes the info record and both channels. -/
theorem register_unregister_registry (s : AgentManagerState)
    (info1 info2 : AgentInfo) (now1 now2 : Nat) :
    ((register_agent s info1 now1).1
        ≠ (register_agent (register_agent s info1 now1).2 info2 now2).1)
    ∧ ((dict_get (register_agent s info1 now1).1
          (register_agent s info1 now1).2.agents).map AgentInfo.status
        = some AgentStatus.online
      ∧ dict_get (register_agent s info1 now1).1
          (register_agent s info1 now1).2.agent_connections = some []
      ∧ dict_get (register_agent s info1 now1).1
          (register_agent s info1 now1).2.command_queues = some [])
    ∧ ((dict_get (register_agent (register_agent s info1 now1).2 info2 now2).1
          (register_agent (register_agent s info1 now1).2 info2 now2).2.agents).map
            AgentInfo.status = some AgentStatus.online
      ∧ dict_get (register_agent (register_agent s info1 now1).2 info2 now2).1
          (register_agent (register_agent s info1 now1).2 info2 now2).2.agent_connections
          = some []
      ∧ dict_get (register_agent (register_agent s info1 now1).2 info2 now2).1
          (register_agent (register_agent s info1 now1).2 info2 now2).2.command_queues
          = some [])
    ∧ (∀ (s2 : AgentManagerState) (agent_id : String),
        dict_get agent_id s2.agents = none →
        dict_get agent_id s2.agent_connections = none →
        dict_get agent_id s2.command_queues = none →
        unregister_agent s2 agent_id = s2)
    ∧ (∀ (s2 : AgentManagerState) (agent_id : String),
        dict_get agent_id (unregister_agent s2 agent_id).agents = none
        ∧ dict_get agent_id (unregister_agent s2 agent_id).agent_connections = none
        ∧ dict_get agent_id (unregister_agent s2 agent_id).command_queues = none) := by
  refine ⟨?_, ⟨?_, ?_, ?_⟩, ⟨?_, ?_, ?_⟩, ?_, ?_⟩
  · intro h
    have h2 : (List.replicate s.uuid_counter 'u').length
        = (List.replicate (s.uuid_counter + 1) 'u').length :=
      congrArg (fun str => str.data.length) h
    simp only [List.length_replicate] at h2
    omega
  · simp [register_agent, dict_get_set_self]
  · simp [register_agent, dict_get_set_self]
  · simp [register_agent, dict_get_set_self]
  · simp [register_agent, dict_get_set_self]
  · simp [register_agent, dict_get_set_self]
  · simp [register_agent, dict_get_set_self]
  · intro s2 agent_id h1 h2 h3
    simp [unregister_agent, dict_del_absent _ _ h1, dict_del_absent _ _ h2,
          dict_del_absent _ _ h3]
  · intro s2 agent_id
    exact ⟨dict_get_del_self _ _, dict_get_del_self _ _, dict_get_del_self _ _⟩

/-- Witness for C7: unregistering an id never registered in the empty
manager is a no-op. -/
theorem register_unregister_registry_witness :
    unregister_agent mgrEmpty "ghost" = mgrEmpty := by
  have h := register_unregister_registry mgrEmpty agentInfo0 agentInfo1 0 0
  exact h.2.2.2.1 mgrEmpty "ghost" rfl rfl rfl

/-- C8: for a registered agent, a poll never blocks and yields at most one
command: with an empty backlog it returns the empty sentinel, repeatedly,
leaving the backlog unchanged; and after enqueuing two commands, two polls
return them in enqueue order (FIFO), each removing the returned command
from the backlog. -/
theorem poll_fifo_protocol (rs : RouterState) (agent_id : String)
    (agent : AgentInfo) (now1 now2 : Nat) (c1 c2 : AgentCommandRequest)
    (hreg : dict_get agent_id rs.manager.agents = some agent)
    (hempty : dict_get agent_id rs.agent_commands = some []) :
    (∃ rs2, get_agent_commands rs agent_id now1 = .ok (none, rs2)
      ∧ rs2.agent_commands = rs.agent_commands
      ∧ ∃ rs3, get_agent_commands rs2 agent_id now2 = .ok (none, rs3)
          ∧ rs3.agent_commands = rs.agent_commands)
    ∧ ∃ respA rsA respB rsB rsC rsD,
        send_command_to_agent rs agent_id c1 = .ok (respA, rsA)
        ∧ dict_get agent_id rsA.agent_commands = some [c1]
        ∧ send_command_to_agent rsA agent_id c2 = .ok (respB, rsB)
        ∧ dict_get agent_id rsB.agent_commands = some [c1, c2]
        ∧ get_agent_commands rsB agent_id now1 = .ok (some c1, rsC)
        ∧ dict_get agent_id rsC.agent_commands = some [c2]
        ∧ get_agent_commands rsC agent_id now2 = .ok (some c2, rsD)
        ∧ dict_get agent_id rsD.agent_commands = some [] := by
  constructor
  · have hreg2 := update_agent_status_get rs.manager agent_id agent.status now1
      agent hreg
    exact ⟨_, get_agent_commands_empty rs agent_id agent now1 hreg hempty, rfl,
      _, get_agent_commands_empty _ agent_id _ now2 hreg2 hempty, rfl⟩
  · have hA := send_command_to_agent_queues rs agent_id agent c1 hreg
    have hGetA : dict_get agent_id
        (dict_set agent_id ((dict_get agent_id rs.agent_commands).getD [] ++ [c1])
          rs.agent_commands) = some [c1] := by
      simp [dict_get_set_self, hempty]
    have hB := send_command_to_agent_queues
      { rs with
        agent_commands := dict_set agent_id
          ((dict_get agent_id rs.agent_commands).getD [] ++ [c1])
          rs.agent_commands }
      agent_id agent c2 hreg
    have hGetB : dict_get agent_id
        (dict_set agent_id
          ((dict_get agent_id (dict_set agent_id
              ((dict_get agent_id rs.agent_commands).getD [] ++ [c1])
              rs.agent_commands)).getD [] ++ [c2])
          (dict_set agent_id ((dict_get agent_id rs.agent_commands).getD [] ++ [c1])
            rs.agent_commands)) = some [c1, c2] := by
      simp [dict_get_set_self, hempty]
    have hC := get_agent_commands_pop
      { rs with
        agent_commands := dict_set agent_id
          ((dict_get agent_id (dict_set agent_id
              ((dict_get agent_id rs.agent_commands).getD [] ++ [c1])
              rs.agent_commands)).getD [] ++ [c2])
          (dict_set agent_id ((dict_get agent_id rs.agent_commands).getD [] ++ [c1])
            rs.agent_commands) }
      agent_id agent now1 c1 [c2] hreg hGetB
    have hregC := update_agent_status_get rs.manager agent_id agent.status now1
      agent hreg
    have hGetC : dict_get agent_id
        (dict_set agent_id [c2]
          (dict_set agent_id
            ((dict_get agent_id (dict_set agent_id
                ((dict_get agent_id rs.agent_commands).getD [] ++ [c1])
                rs.agent_commands)).getD [] ++ [c2])
            (dict_set agent_id ((dict_get agent_id rs.agent_commands).getD [] ++ [c1])
              rs.agent_commands))) = some [c2] := by
      simp [dict_get_set_self]
    have hD := get_agent_commands_pop
      { rs with
        manager := update_agent_status rs.manager agent_id agent.status now1
        agent_commands := dict_set agent_id [c2]
          (dict_set agent_id
            ((dict_get agent_id (dict_set agent_id
                ((dict_get agent_id rs.agent_commands).getD [] ++ [c1])
                rs.agent_commands)).getD [] ++ [c2])
            (dict_set agent_id ((dict_get agent_id rs.agent_commands).getD [] ++ [c1])
              rs.agent_commands)) }
      agent_id { agent with status := agent.status, last_seen := now1 } now2 c2 []
      hregC hGetC
    exact ⟨_, _, _, _, _, _, hA, hGetA, hB, hGetB, hC, hGetC, hD,
      by simp [dict_get_set_self]⟩

/-- Witness for C8: the concrete one-agent router state `rsW` with an empty
backlog: both polls return the sentinel and leave the backlog unchanged. -/
theorem poll_fifo_protocol_witness :
    dict_get agentId0 rsW.manager.agents = some agentReg
    ∧ (∃ rs2, get_agent_commands rsW agentId0 1 = .ok (none, rs2)
        ∧ rs2.agent_commands = rsW.agent_commands
        ∧ ∃ rs3, get_agent_commands rs2 agentId0 2 = .ok (none, rs3)
            ∧ rs3.agent_commands = rsW.agent_commands) := by
  refine ⟨rfl, ?_⟩
  exact (poll_fifo_protocol rsW agentId0 agentReg 1 2 cmdRun cmdRun2 rfl rfl).1
